import Mathlib

/-!
Verification of the web-app-qa visual-regression and cross-browser
subsystem (scripts/visual_regression.py, scripts/cross_browser.py,
scripts/browser_utils.py, scripts/constants.py).

The Python code is shallowly embedded: images become lists of RGB pixels
with natural-number channels, floating-point arithmetic becomes exact
rational arithmetic over ℚ (all the quantities involved are ratios of
small integers, and every property checked here is insensitive to this
refinement), and the interactions with the browser-automation library
(page.goto, locator counts, console evaluation, engine launch) become
explicit outcome oracles passed to the embedded functions.
-/

namespace WebAppQA

/-- One pixel of an image normalized to RGB (Image.convert in
visual_regression.py line 148): three 8-bit channel values. -/
structure Pixel where
  r : Nat
  g : Nat
  b : Nat
deriving DecidableEq, Repr

/-- A normalized image, as the row-major list of its pixels.  The claims
under study quantify over images already normalized to equal dimensions,
so only the flat pixel sequence matters to the embedded comparison. -/
abbrev Image := List Pixel

/-- Absolute difference of two channel values, as computed per channel by
ImageChops.difference (visual_regression.py line 157). -/
def channelDiff (a b : Nat) : Nat := max a b - min a b

/-- Per-pixel channel-wise absolute difference. -/
def pixelDiff (p q : Pixel) : Pixel :=
  { r := channelDiff p.r q.r, g := channelDiff p.g q.g, b := channelDiff p.b q.b }

/-- The flattened difference array np.array(diff) of visual_regression.py
line 160: three channel entries per pixel, in pixel order. -/
def diffEntries : Image → Image → List Nat
  | [], _ => []
  | p :: ps, qs =>
      match qs with
      | [] => []
      | q :: qs₂ =>
          let d := pixelDiff p q
          d.r :: d.g :: d.b :: diffEntries ps qs₂

/-- np.count_nonzero (visual_regression.py line 162): the number of
nonzero entries of the flattened difference array. -/
def count_nonzero (l : List Nat) : Nat := (l.filter (fun x => x != 0)).length

/-- The claim-relevant fields of the comparison dict returned by
VisualTester._compare_images (visual_regression.py lines 181-190).  The
dict stores diff_percentage divided by 100, i.e. a ratio in [0, 1]. -/
structure DiffResult where
  viewport : String
  diff_percentage : ℚ
  threshold : ℚ
  passed : Bool
deriving DecidableEq, Repr

/-- VisualTester._compare_images (visual_regression.py lines 146-190),
restricted to its numeric content: total_pixels = diff_array.size (which
is the CHANNEL-entry count, three per pixel), changed_pixels =
np.count_nonzero(diff_array), diff_percentage = changed/total*100, the
stored ratio is diff_percentage/100 and passed = (diff_percentage/100 <=
threshold). -/
def compare_images (baseline current : Image) (viewport : String) (threshold : ℚ) :
    DiffResult :=
  let diff_array := diffEntries baseline current
  let total_pixels : ℚ := (diff_array.length : ℚ)
  let changed_pixels : ℚ := (count_nonzero diff_array : ℚ)
  let diff_percentage : ℚ := changed_pixels / total_pixels * 100
  { viewport := viewport
    diff_percentage := diff_percentage / 100
    threshold := threshold
    passed := decide (diff_percentage / 100 ≤ threshold) }

/-- Modelled from the wording of the spec for claim C1 only (spec.md line 50):
"diffRatio = (count of pixels with any nonzero channel difference) /
(total pixel count)" — the numerator counts PIXELS differing in at least
one channel and the denominator is the PIXEL count.  This definition is
compared against the one embedded from the source. -/
def specDiffFraction (baseline current : Image) : ℚ :=
  (((List.zipWith pixelDiff baseline current).filter
      (fun d => d != { r := 0, g := 0, b := 0 })).length : ℚ) /
    (baseline.length : ℚ)

/-! Cross-browser matrix (cross_browser.py) -/

/-- Status strings used in the result dicts of cross_browser.py. -/
inductive Status
  | PASS
  | WARN
  | FAIL
  | ERROR
deriving DecidableEq, Repr

/-- One step-result dict (keys test, status, message, elapsed) of
cross_browser.py; elapsed is wall-clock time and is omitted, no claim
depends on it. -/
structure TestResult where
  test : String
  status : Status
  message : String
deriving DecidableEq, Repr

/-- Outcome of page.goto in the load step: a response carrying an HTTP
status code and the elapsed seconds, or a raised exception message. -/
inductive LoadOutcome
  | response (status : Nat) (elapsed : ℚ)
  | exn (msg : String)
deriving DecidableEq, Repr

/-- Outcome of the locator counts in the interaction step. -/
inductive InteractionOutcome
  | counts (buttons links inputs : Nat)
  | exn (msg : String)
deriving DecidableEq, Repr

/-- Outcome of the console evaluation in the console-error step. -/
inductive ConsoleOutcome
  | ok
  | exn (msg : String)
deriving DecidableEq, Repr

/-- What the browser does for one target: launch = some msg means
BrowserManager raises msg on entry (e.g. engine launch failure); the
remaining fields are the oracles consumed by the three test steps. -/
structure BrowserEnv where
  launch : Option String
  load : LoadOutcome
  interactions : InteractionOutcome
  console : ConsoleOutcome
deriving DecidableEq, Repr

/-- CrossBrowserTester._test_page_load (cross_browser.py lines 111-153):
HTTP status >= 400 fails with message HTTP followed by the status number; elapsed > 5.0
warns (slow); otherwise passes; a goto exception fails with its text. -/
def test_page_load (o : LoadOutcome) : TestResult :=
  match o with
  | .response s e =>
      if 400 ≤ s then
        { test := "Load page", status := .FAIL, message := "HTTP " ++ toString s }
      else if 5 < e then
        { test := "Load page", status := .WARN,
          message := "Loaded (slow: " ++ toString e ++ "s)" }
      else
        { test := "Load page", status := .PASS,
          message := "Loaded in " ++ toString e ++ "s" }
  | .exn m => { test := "Load page", status := .FAIL, message := m }

/-- CrossBrowserTester._test_basic_interactions (lines 155-189). -/
def test_basic_interactions (o : InteractionOutcome) : TestResult :=
  match o with
  | .counts bu li inp =>
      if bu + li + inp = 0 then
        { test := "Basic interactions", status := .WARN,
          message := "No interactive elements found" }
      else
        { test := "Basic interactions", status := .PASS,
          message := "Found " ++ toString bu ++ " buttons, " ++ toString li ++
            " links, " ++ toString inp ++ " inputs" }
  | .exn m => { test := "Basic interactions", status := .FAIL, message := m }

/-- CrossBrowserTester._test_console_errors (lines 191-217). -/
def test_console_errors (o : ConsoleOutcome) : TestResult :=
  match o with
  | .ok =>
      { test := "Console errors", status := .PASS,
        message := "No obvious console errors" }
  | .exn m =>
      { test := "Console errors", status := .WARN,
        message := "Could not check console: " ++ m }

/-- The step list built by _test_single_browser (lines 72-84): the load
step always runs; the interaction and console steps run only when the
status of the load step is PASS. -/
def step_list (env : BrowserEnv) : List TestResult :=
  let t1 := test_page_load env.load
  if t1.status = Status.PASS then
    [t1, test_basic_interactions env.interactions, test_console_errors env.console]
  else
    [t1]

/-- The overall-status rollup of _test_single_browser (lines 88-101).
The source really does set details to the text All tests passed in the branch
where some step FAILed. -/
def rollup (tests : List TestResult) : Status × String :=
  let failed := tests.filter (fun t => t.status == Status.FAIL)
  let warnings := tests.filter (fun t => t.status == Status.WARN)
  if failed ≠ [] then (Status.FAIL, "All tests passed")
  else if warnings ≠ [] then (Status.WARN, "Some tests have warnings")
  else (Status.PASS, "All tests passed")

/-- The claim-relevant fields of the per-target result dict of
cross_browser.py (duration is wall-clock time, omitted; the error key is
present only in the ERROR record built in test_browsers). -/
structure RunResult where
  browser : String
  engine : String
  status : Status
  details : String
  error : Option String
  tests : List TestResult
deriving DecidableEq, Repr

/-- CrossBrowserTester._test_single_browser (lines 67-109).  An exception
raised by BrowserManager on entry propagates out (modelled as .error);
the three steps catch their own exceptions internally. -/
def test_single_browser (engine browser_name : String) (env : BrowserEnv) :
    Except String RunResult :=
  match env.launch with
  | some msg => .error msg
  | none =>
      let tests := step_list env
      let os := rollup tests
      .ok { browser := browser_name, engine := engine, status := os.1,
            details := os.2, error := none, tests := tests }

/-- constants.py line 111. -/
def SUPPORTED_BROWSERS : List String := ["chromium", "firefox", "webkit"]

/-- constants.py lines 114-118, as a lookup function. -/
def BROWSER_ALIASES (name : String) : Option String :=
  if name = "chrome" then some "chromium"
  else if name = "ff" then some "firefox"
  else if name = "safari" then some "webkit"
  else none

/-- ASCII lower-casing of one character.  str.lower() is embedded as a
structurally recursive map over the character list because the library
String.toLower is defined by well-founded recursion on byte positions,
which the kernel cannot unfold; on the ASCII browser names involved the
two agree. -/
def lowerChar (c : Char) : Char :=
  if 'A' ≤ c ∧ c ≤ 'Z' then Char.ofNat (c.toNat + 32) else c

/-- str.lower() on the character list. -/
def lowerStr (s : String) : String := String.mk (s.data.map lowerChar)

/-- Alias normalization of cross_browser.py line 41:
BROWSER_ALIASES.get(browser_name.lower(), browser_name.lower()). -/
def resolveEngine (browser_name : String) : String :=
  (BROWSER_ALIASES (lowerStr browser_name)).getD (lowerStr browser_name)

/-- The loop body of CrossBrowserTester.test_browsers for one supported
target (lines 49-62): run the single-browser test, and catch any
exception at the target boundary as an ERROR record with the exception
text in both details and error. -/
def run_target (b : String) (env : String → BrowserEnv) : RunResult :=
  match test_single_browser (resolveEngine b) b (env b) with
  | .ok r => r
  | .error e =>
      { browser := b, engine := resolveEngine b, status := Status.ERROR,
        details := e, error := some e, tests := [] }

/-- CrossBrowserTester.test_browsers (lines 35-65): per requested name,
resolve the alias, skip unsupported engines with a warning, otherwise
append the result of the target. -/
def test_browsers (browsers : List String) (env : String → BrowserEnv) :
    List RunResult :=
  match browsers with
  | [] => []
  | b :: rest =>
      if resolveEngine b ∈ SUPPORTED_BROWSERS then
        run_target b env :: test_browsers rest env
      else
        test_browsers rest env

/-- The exit-code computation of main (cross_browser.py lines 440-441):
failed = [r for r in results if r.status == FAIL]; exit(1 if failed
else 0). -/
def exit_code (results : List RunResult) : Nat :=
  if results.filter (fun r => r.status == Status.FAIL) ≠ [] then 1 else 0

/-! Navigation retry helper and baseline capture
(browser_utils.py, visual_regression.py) -/

/-- Outcome of one page.goto attempt: success, or a raised exception. -/
inductive NavOutcome
  | ok
  | err (msg : String)
deriving DecidableEq, Repr

/-- constants.py line 143. -/
def MAX_NAVIGATION_RETRIES : Nat := 3

/-- The attempt loop of navigate_with_retry: argument i is the index of
the next attempt to make, the second argument the number of attempts
left; the loop returns True on the first successful goto and False once
the attempts are exhausted. -/
def navLoop (nav : Nat → NavOutcome) : Nat → Nat → Bool
  | _, 0 => false
  | i, k + 1 =>
      match nav i with
      | .ok => true
      | .err _ => navLoop nav (i + 1) k

/-- browser_utils.navigate_with_retry (browser_utils.py lines 191-218):
up to max_retries goto attempts (the default of the source is 3, matching
MAX_NAVIGATION_RETRIES); the attempt outcomes are the oracle nav. -/
def navigate_with_retry (nav : Nat → NavOutcome) (max_retries : Nat) : Bool :=
  navLoop nav 0 max_retries

/-- VisualTester.VIEWPORTS (visual_regression.py lines 32-37). -/
def VIEWPORTS (name : String) : Option (Nat × Nat) :=
  if name = "desktop" then some (1920, 1080)
  else if name = "tablet" then some (768, 1024)
  else if name = "mobile" then some (375, 667)
  else if name = "laptop" then some (1366, 768)
  else none

/-- VisualTester.capture_baseline (visual_regression.py lines 43-77),
restricted to its navigation and file-name content.  nav v i is the
outcome of the i-th goto attempt for viewport v; the source performs
exactly one goto per viewport (line 61) with no try/except around it, so
a navigation exception propagates out of the whole loop (modelled as
.error).  Unknown viewport names are skipped; each captured viewport
contributes the file name made of the viewport name, the dimensions and the .png extension. -/
def capture_baseline (viewports : List String) (nav : String → Nat → NavOutcome) :
    Except String (List String) :=
  match viewports with
  | [] => .ok []
  | v :: rest =>
      match VIEWPORTS v with
      | none => capture_baseline rest nav
      | some wh =>
          match nav v 0 with
          | .err m => .error m
          | .ok =>
              match capture_baseline rest nav with
              | .error m => .error m
              | .ok files =>
                  .ok ((v ++ "_" ++ toString wh.1 ++ "x" ++ toString wh.2 ++ ".png")
                    :: files)

/-! Helper lemmas -/

theorem diffEntries_length : ∀ (A B : Image), A.length = B.length →
    (diffEntries A B).length = 3 * A.length
  | [], [], _ => rfl
  | [], _ :: _, h => by simp at h
  | _ :: _, [], h => by simp at h
  | _ :: ps, _ :: qs, h => by
      have ih := diffEntries_length ps qs (by simpa using h)
      simp only [diffEntries, List.length_cons, ih]
      omega

theorem channelDiff_self (a : Nat) : channelDiff a a = 0 := by
  simp [channelDiff]

theorem count_nonzero_diffEntries_self : ∀ (A : Image),
    count_nonzero (diffEntries A A) = 0
  | [] => rfl
  | p :: ps => by
      have ih := count_nonzero_diffEntries_self ps
      simp only [diffEntries, pixelDiff, channelDiff_self, count_nonzero,
        List.filter] at ih ⊢
      simpa using ih

/-! Claims about the diff engine -/

/-- C1 counterexample: for the 1-pixel images ⟨0,0,0⟩ and ⟨1,0,0⟩ (one
channel of the single pixel differs) the comparison stores a diff ratio
of 1/3, whereas the claimed pixel-based formula gives 1/1 = 1: the
denominator of the computed ratio is the channel-entry count, not the
pixel count. -/
theorem c1_counterexample :
    (compare_images [⟨0, 0, 0⟩] [⟨1, 0, 0⟩] "desktop" (5/100)).diff_percentage = 1/3 ∧
    specDiffFraction [⟨0, 0, 0⟩] [⟨1, 0, 0⟩] = 1 ∧
    (compare_images [⟨0, 0, 0⟩] [⟨1, 0, 0⟩] "desktop" (5/100)).diff_percentage ≠
      specDiffFraction [⟨0, 0, 0⟩] [⟨1, 0, 0⟩] := by
  have h1 : count_nonzero (diffEntries [⟨0, 0, 0⟩] [⟨1, 0, 0⟩]) = 1 := by decide
  have h2 : (diffEntries ([⟨0, 0, 0⟩] : Image) [⟨1, 0, 0⟩]).length = 3 := by decide
  have h3 : ((List.zipWith pixelDiff [⟨0, 0, 0⟩] [⟨1, 0, 0⟩]).filter
      (fun d => d != { r := 0, g := 0, b := 0 })).length = 1 := by decide
  have e1 : (compare_images [⟨0, 0, 0⟩] [⟨1, 0, 0⟩] "desktop"
      (5/100)).diff_percentage = 1/3 := by
    simp only [compare_images, h1, h2]
    norm_num
  have e2 : specDiffFraction [⟨0, 0, 0⟩] [⟨1, 0, 0⟩] = 1 := by
    simp only [specDiffFraction, h3]
    norm_num
  refine ⟨e1, e2, ?_⟩
  rw [e1, e2]
  norm_num

/-- C1 amended: for normalized equal-dimension images, the stored diff
ratio equals the number of channel entries that differ divided by three
times the pixel count (a pixel differing in k of its three channels
contributes k to the numerator, and the denominator is the channel
count, not the pixel count). -/
theorem c1_amended (A B : Image) (vp : String) (t : ℚ)
    (h : A.length = B.length) :
    (compare_images A B vp t).diff_percentage =
      (count_nonzero (diffEntries A B) : ℚ) / (3 * (A.length : ℚ)) := by
  have hl : ((diffEntries A B).length : ℚ) = 3 * (A.length : ℚ) := by
    exact_mod_cast congrArg (Nat.cast : Nat → ℚ) (diffEntries_length A B h)
  simp only [compare_images]
  rw [hl, mul_div_assoc]
  norm_num

/-- C1 amended, witnessed at a concrete pair of 2-pixel images. -/
theorem c1_amended_witness :
    ([⟨0, 0, 0⟩, ⟨2, 3, 4⟩] : Image).length = ([⟨1, 0, 0⟩, ⟨2, 3, 4⟩] : Image).length ∧
    (compare_images [⟨0, 0, 0⟩, ⟨2, 3, 4⟩] [⟨1, 0, 0⟩, ⟨2, 3, 4⟩] "desktop"
        (5/100)).diff_percentage =
      (count_nonzero (diffEntries [⟨0, 0, 0⟩, ⟨2, 3, 4⟩] [⟨1, 0, 0⟩, ⟨2, 3, 4⟩]) : ℚ) /
        (3 * (([⟨0, 0, 0⟩, ⟨2, 3, 4⟩] : Image).length : ℚ)) :=
  ⟨rfl, c1_amended [⟨0, 0, 0⟩, ⟨2, 3, 4⟩] [⟨1, 0, 0⟩, ⟨2, 3, 4⟩] "desktop" (5/100) rfl⟩

/-- C6: for every comparison result, the passed flag holds exactly when
the stored diff ratio is at most the threshold, and the boundary is
inclusive: a diff ratio exactly equal to the threshold passes. -/
theorem c6_passed_iff_le_threshold (A B : Image) (vp : String) (t : ℚ) :
    ((compare_images A B vp t).passed = true ↔
      (compare_images A B vp t).diff_percentage ≤ t) ∧
    ((compare_images A B vp t).diff_percentage = t →
      (compare_images A B vp t).passed = true) := by
  refine ⟨by simp [compare_images], fun h => ?_⟩
  simp only [compare_images] at h ⊢
  simpa using le_of_eq h

/-- C6 witnessed at the boundary: a comparison whose diff ratio is
exactly the threshold 1/3 passes. -/
theorem c6_witness :
    (compare_images [⟨0, 0, 0⟩] [⟨1, 0, 0⟩] "desktop" (1/3)).diff_percentage = 1/3 ∧
    (compare_images [⟨0, 0, 0⟩] [⟨1, 0, 0⟩] "desktop" (1/3)).passed = true := by
  have h1 : count_nonzero (diffEntries [⟨0, 0, 0⟩] [⟨1, 0, 0⟩]) = 1 := by decide
  have h2 : (diffEntries ([⟨0, 0, 0⟩] : Image) [⟨1, 0, 0⟩]).length = 3 := by decide
  have e1 : (compare_images [⟨0, 0, 0⟩] [⟨1, 0, 0⟩] "desktop"
      (1/3)).diff_percentage = 1/3 := by
    simp only [compare_images, h1, h2]
    norm_num
  exact ⟨e1, (c6_passed_iff_le_threshold [⟨0, 0, 0⟩] [⟨1, 0, 0⟩] "desktop" (1/3)).2 e1⟩

/-- C7: comparing any image against itself yields a stored diff ratio of
exactly 0 and a passed verdict, for every non-negative threshold. -/
theorem c7_compare_self (A : Image) (vp : String) (t : ℚ) (h : 0 ≤ t) :
    (compare_images A A vp t).diff_percentage = 0 ∧
    (compare_images A A vp t).passed = true := by
  have hc : (count_nonzero (diffEntries A A) : ℚ) = 0 := by
    exact_mod_cast congrArg (Nat.cast : Nat → ℚ) (count_nonzero_diffEntries_self A)
  constructor
  · simp [compare_images, hc]
  · simp [compare_images, hc, h]

/-- C7 witnessed at a concrete one-pixel image and threshold 0. -/
theorem c7_witness :
    0 ≤ (0 : ℚ) ∧
    (compare_images [⟨5, 6, 7⟩] [⟨5, 6, 7⟩] "desktop" 0).diff_percentage = 0 ∧
    (compare_images [⟨5, 6, 7⟩] [⟨5, 6, 7⟩] "desktop" 0).passed = true :=
  ⟨le_refl 0, c7_compare_self [⟨5, 6, 7⟩] "desktop" 0 (le_refl 0)⟩

/-! Concrete browser environments used in counterexamples and
witnesses -/

/-- A target whose engine launch raises. -/
def envLaunchFail : BrowserEnv :=
  { launch := some "launch failed", load := .exn "unused",
    interactions := .exn "unused", console := .exn "unused" }

/-- A target where everything succeeds quickly. -/
def envAllPass : BrowserEnv :=
  { launch := none, load := .response 200 1,
    interactions := .counts 1 2 3, console := .ok }

/-- A target whose page loads with HTTP 200 but slowly (6 s > 5 s). -/
def envSlowLoad : BrowserEnv :=
  { launch := none, load := .response 200 6,
    interactions := .counts 1 2 3, console := .ok }

/-- A target whose navigation returns HTTP 500. -/
def envHttp500 : BrowserEnv :=
  { launch := none, load := .response 500 1,
    interactions := .counts 1 2 3, console := .ok }

/-! Helper lemmas about the matrix runner -/

theorem test_browsers_append (l₁ l₂ : List String) (env : String → BrowserEnv) :
    test_browsers (l₁ ++ l₂) env = test_browsers l₁ env ++ test_browsers l₂ env := by
  induction l₁ with
  | nil => rfl
  | cons b rest ih =>
      simp only [List.cons_append, test_browsers]
      by_cases hb : resolveEngine b ∈ SUPPORTED_BROWSERS
      · simp [hb, ih]
      · simp [hb, ih]

theorem run_target_of_launch_exn (b : String) (env : String → BrowserEnv)
    (msg : String) (hl : (env b).launch = some msg) :
    run_target b env =
      { browser := b, engine := resolveEngine b, status := Status.ERROR,
        details := msg, error := some msg, tests := [] } := by
  unfold run_target test_single_browser
  rw [hl]

theorem test_single_browser_ok (engine b : String) (env : BrowserEnv)
    (hl : env.launch = none) :
    test_single_browser engine b env =
      Except.ok { browser := b, engine := engine,
                  status := (rollup (step_list env)).1,
                  details := (rollup (step_list env)).2, error := none,
                  tests := step_list env } := by
  unfold test_single_browser
  rw [hl]

theorem run_target_of_ok (b : String) (env : String → BrowserEnv)
    (r : RunResult)
    (hok : test_single_browser (resolveEngine b) b (env b) = Except.ok r) :
    run_target b env = r := by
  unfold run_target
  rw [hok]

theorem run_target_engine (b : String) (env : String → BrowserEnv) :
    (run_target b env).engine = resolveEngine b := by
  unfold run_target
  cases hok : test_single_browser (resolveEngine b) b (env b) with
  | ok r =>
      unfold test_single_browser at hok
      cases hl : (env b).launch with
      | some m => rw [hl] at hok; simp at hok
      | none =>
          rw [hl] at hok
          injection hok with h
          rw [← h]
  | error e => rfl

theorem rollup_of_fail_mem (ts : List TestResult)
    (h : Status.FAIL ∈ ts.map TestResult.status) :
    rollup ts = (Status.FAIL, "All tests passed") := by
  have hf : ts.filter (fun t => t.status == Status.FAIL) ≠ [] := by
    simp only [List.mem_map] at h
    obtain ⟨t, ht, hst⟩ := h
    intro hnil
    have hmem : t ∈ ts.filter (fun t => t.status == Status.FAIL) :=
      List.mem_filter.mpr ⟨ht, by simp [hst]⟩
    rw [hnil] at hmem
    simp at hmem
  unfold rollup
  simp [hf]

/-! Claims about the matrix runner -/

/-- C2 counterexample: a run whose only target errored (engine launch
failure) produces the result-status list [ERROR] yet exits with code 0,
because the exit computation of main only looks for FAIL. -/
theorem c2_counterexample :
    (test_browsers ["chrome"] (fun _ => envLaunchFail)).map RunResult.status =
      [Status.ERROR] ∧
    exit_code (test_browsers ["chrome"] (fun _ => envLaunchFail)) = 0 := by
  decide

/-- C2 amended: the process exits with code 1 exactly when some result
has status FAIL, and with code 0 exactly when no result
has status FAIL — results with status ERROR do not affect the exit
code. -/
theorem c2_amended (results : List RunResult) :
    (exit_code results = 1 ↔ Status.FAIL ∈ results.map RunResult.status) ∧
    (exit_code results = 0 ↔ Status.FAIL ∉ results.map RunResult.status) := by
  have key : (results.filter (fun r => r.status == Status.FAIL) ≠ []) ↔
      Status.FAIL ∈ results.map RunResult.status := by
    rw [Ne, List.filter_eq_nil_iff]
    simp [List.mem_map]
  by_cases hc : results.filter (fun r => r.status == Status.FAIL) = []
  · have hm : Status.FAIL ∉ results.map RunResult.status := by
      rw [← key]
      simp [hc]
    constructor
    · simp [exit_code, hc, hm]
    · simp [exit_code, hc, hm]
  · have hm : Status.FAIL ∈ results.map RunResult.status := key.mp hc
    constructor
    · simp [exit_code, hc, hm]
    · simp [exit_code, hc, hm]

/-- C5 counterexample: enumerating ["chrome", "chromium"] yields TWO
results (both for engine chromium), not one deduplicated target: the
engine is run once per requested name. -/
theorem c5_counterexample :
    (test_browsers ["chrome", "chromium"] (fun _ => envAllPass)).map
        RunResult.engine = ["chromium", "chromium"] ∧
    (test_browsers ["chrome", "chromium"] (fun _ => envAllPass)).length = 2 := by
  decide

/-- C5 amended: "chrome" and "chromium" do resolve to the same canonical
engine before the support check, but enumeration does not deduplicate:
for every environment, the input list ["chrome", "chromium"] yields
exactly two results, both with engine "chromium". -/
theorem c5_amended (env : String → BrowserEnv) :
    resolveEngine "chrome" = resolveEngine "chromium" ∧
    (test_browsers ["chrome", "chromium"] env).map RunResult.engine =
      ["chromium", "chromium"] ∧
    (test_browsers ["chrome", "chromium"] env).length = 2 := by
  have h1 := run_target_engine "chrome" env
  have h2 := run_target_engine "chromium" env
  have e1 : resolveEngine "chrome" = "chromium" := by decide
  have e2 : resolveEngine "chromium" = "chromium" := by decide
  have hsup1 : resolveEngine "chrome" ∈ SUPPORTED_BROWSERS := by decide
  have hsup2 : resolveEngine "chromium" ∈ SUPPORTED_BROWSERS := by decide
  refine ⟨by rw [e1, e2], ?_, ?_⟩
  · simp only [test_browsers, hsup1, hsup2, if_true]
    simp [h1, h2, e1, e2]
  · simp only [test_browsers, hsup1, hsup2, if_true]
    rfl

/-- C8: an exception raised while processing one supported target (for
example an engine launch failure) is caught at the target boundary and
converted into a result record with status ERROR carrying the exception
text, and every other requested target before and after it still
produces exactly its own result: no exception escapes the per-target
loop. -/
theorem c8_error_isolation (pre post : List String) (b : String)
    (env : String → BrowserEnv) (msg : String)
    (hb : resolveEngine b ∈ SUPPORTED_BROWSERS)
    (hl : (env b).launch = some msg) :
    test_browsers (pre ++ b :: post) env =
      test_browsers pre env ++
        ({ browser := b, engine := resolveEngine b, status := Status.ERROR,
           details := msg, error := some msg, tests := [] } : RunResult) ::
          test_browsers post env := by
  rw [test_browsers_append]
  congr 1
  simp only [test_browsers, hb, if_true]
  rw [run_target_of_launch_exn b env msg hl]

/-- The environment for the C8 witness: launching chrome raises, every
other target passes. -/
def envC8 : String → BrowserEnv := fun b =>
  if b = "chrome" then envLaunchFail else envAllPass

/-- C8 witnessed on the concrete three-target run firefox, chrome,
webkit where the chrome engine launch raises. -/
theorem c8_witness :
    test_browsers ["firefox", "chrome", "webkit"] envC8 =
      test_browsers ["firefox"] envC8 ++
        ({ browser := "chrome", engine := resolveEngine "chrome",
           status := Status.ERROR, details := "launch failed",
           error := some "launch failed", tests := [] } : RunResult) ::
          test_browsers ["webkit"] envC8 :=
  c8_error_isolation ["firefox"] ["webkit"] "chrome" envC8 "launch failed"
    (by decide) (by decide)

/-- C9: a supported target whose navigation returns an HTTP status of at
least 400 (such as 500) gets a FAIL load step whose message (HTTP followed by the status number)
contains the numeric status code, an overall per-target status of FAIL,
and the targets before and after it still produce exactly their own
results (no early abort). -/
theorem c9_http_fail (pre post : List String) (b : String)
    (env : String → BrowserEnv) (s : Nat) (e : ℚ)
    (hb : resolveEngine b ∈ SUPPORTED_BROWSERS)
    (hl : (env b).launch = none)
    (hload : (env b).load = LoadOutcome.response s e)
    (hs : 400 ≤ s) :
    run_target b env =
      { browser := b, engine := resolveEngine b, status := Status.FAIL,
        details := "All tests passed", error := none,
        tests := [{ test := "Load page", status := Status.FAIL,
                    message := "HTTP " ++ toString s }] } ∧
    (toString s).data <:+: ("HTTP " ++ toString s).data ∧
    test_browsers (pre ++ b :: post) env =
      test_browsers pre env ++ run_target b env :: test_browsers post env := by
  have ht1 : test_page_load (env b).load =
      { test := "Load page", status := Status.FAIL,
        message := "HTTP " ++ toString s } := by
    rw [hload]
    simp only [test_page_load]
    rw [if_pos hs]
  have hstep : step_list (env b) =
      [{ test := "Load page", status := Status.FAIL,
         message := "HTTP " ++ toString s }] := by
    simp only [step_list, ht1]
    simp
  refine ⟨?_, ?_, ?_⟩
  · rw [run_target_of_ok b env _ (test_single_browser_ok (resolveEngine b) b
      (env b) hl)]
    rw [hstep]
    unfold rollup
    simp
  · rw [String.data_append]
    exact ⟨"HTTP ".data, [], by simp⟩
  · rw [test_browsers_append]
    congr 1
    simp only [test_browsers, hb, if_true]

/-- The environment for the C9 witness: the chrome navigation returns
HTTP 500, every other target passes. -/
def envC9 : String → BrowserEnv := fun b =>
  if b = "chrome" then envHttp500 else envAllPass

/-- C9 witnessed on the concrete three-target run firefox, chrome,
webkit where the chrome navigation returns HTTP 500. -/
theorem c9_witness :
    run_target "chrome" envC9 =
      { browser := "chrome", engine := resolveEngine "chrome",
        status := Status.FAIL, details := "All tests passed", error := none,
        tests := [{ test := "Load page", status := Status.FAIL,
                    message := "HTTP " ++ toString 500 }] } ∧
    (toString 500).data <:+: ("HTTP " ++ toString 500).data ∧
    test_browsers (["firefox"] ++ "chrome" :: ["webkit"]) envC9 =
      test_browsers ["firefox"] envC9 ++
        run_target "chrome" envC9 :: test_browsers ["webkit"] envC9 :=
  c9_http_fail ["firefox"] ["webkit"] "chrome" envC9 500 1
    (by decide) (by decide) (by decide) (by decide)

/-- C10: whenever a per-target run completes (no launch exception) and
its step list contains at least one FAIL step, the rolled-up result has
status FAIL but its details field is the string "All tests passed" — the
very text of the all-pass case — so the human-readable details
contradict the status exactly when a step failed. -/
theorem c10_fail_details (engine browser_name : String) (env : BrowserEnv)
    (r : RunResult)
    (hok : test_single_browser engine browser_name env = Except.ok r)
    (hmem : Status.FAIL ∈ r.tests.map TestResult.status) :
    r.status = Status.FAIL ∧ r.details = "All tests passed" := by
  cases hl : env.launch with
  | some m =>
      unfold test_single_browser at hok
      rw [hl] at hok
      simp at hok
  | none =>
      rw [test_single_browser_ok engine browser_name env hl] at hok
      injection hok with h
      subst h
      have hr := rollup_of_fail_mem (step_list env) (by simpa using hmem)
      refine ⟨?_, ?_⟩ <;> simp [hr]

/-- The rolled-up FAIL record for chrome under envHttp500, used to
witness C10. -/
def rC10 : RunResult :=
  { browser := "chrome", engine := "chromium", status := Status.FAIL,
    details := "All tests passed", error := none,
    tests := [{ test := "Load page", status := Status.FAIL,
                message := "HTTP 500" }] }

/-- C10 witnessed on the concrete run of chrome against a page returning
HTTP 500. -/
theorem c10_witness : rC10.status = Status.FAIL ∧ rC10.details = "All tests passed" :=
  c10_fail_details "chromium" "chrome" envHttp500 rC10 (by rfl) (by decide)

/-- C4 counterexample: with a slow (6 s) HTTP-200 load the load step
returns WARN — which is not FAIL — yet the interaction and console-error
steps are skipped: the step list stops at the load step, so "run if load
did not Fail" does not hold. -/
theorem c4_counterexample :
    (test_page_load envSlowLoad.load).status = Status.WARN ∧
    Status.WARN ≠ Status.FAIL ∧
    step_list envSlowLoad = [test_page_load envSlowLoad.load] ∧
    (step_list envSlowLoad).length = 1 := by
  have h : (test_page_load envSlowLoad.load).status = Status.WARN := by
    show (test_page_load (LoadOutcome.response 200 6)).status = Status.WARN
    simp only [test_page_load]
    rw [if_neg (by norm_num), if_pos (by norm_num)]
  have hne : ¬(test_page_load envSlowLoad.load).status = Status.PASS := by
    rw [h]
    decide
  have hstep : step_list envSlowLoad = [test_page_load envSlowLoad.load] := by
    simp only [step_list]
    rw [if_neg hne]
  exact ⟨h, by decide, hstep, by rw [hstep]; rfl⟩

/-- C4 amended: the interaction and console-error steps are executed if
and only if the load step returned PASS; whenever the load step returned
anything else — including WARN for a slow load — the step list is just
the load step. -/
theorem c4_amended (env : BrowserEnv) :
    ((step_list env).length = 3 ↔
      (test_page_load env.load).status = Status.PASS) ∧
    ((test_page_load env.load).status ≠ Status.PASS →
      step_list env = [test_page_load env.load]) := by
  by_cases hp : (test_page_load env.load).status = Status.PASS
  · exact ⟨by simp [step_list, hp], fun hn => absurd hp hn⟩
  · exact ⟨by simp [step_list, hp], fun _ => by simp [step_list, hp]⟩

/-- C4 amended, witnessed on the slow-load environment. -/
theorem c4_witness : step_list envSlowLoad = [test_page_load envSlowLoad.load] :=
  (c4_amended envSlowLoad).2 (by
    have h : (test_page_load envSlowLoad.load).status = Status.WARN := by
      show (test_page_load (LoadOutcome.response 200 6)).status = Status.WARN
      simp only [test_page_load]
      rw [if_neg (by norm_num), if_pos (by norm_num)]
    rw [h]
    decide)

/-- A navigation oracle that raises on the first attempt and succeeds
from the second attempt on. -/
def navFailOnce : Nat → NavOutcome := fun i =>
  if i = 0 then NavOutcome.err "net timeout" else NavOutcome.ok

/-- True when a navigation attempt succeeded. -/
def navIsOk : NavOutcome → Bool
  | .ok => true
  | .err _ => false

/-- C3 counterexample: under an oracle that raises on the first goto and
would succeed on the second, navigate_with_retry with the fixed bound of
3 attempts reports success — but baseline screenshot capture performs a
single unguarded goto, so the capture is given up with the propagated
exception after one attempt and no retry happens. -/
theorem c3_counterexample :
    navigate_with_retry navFailOnce MAX_NAVIGATION_RETRIES = true ∧
    capture_baseline ["desktop"] (fun _ => navFailOnce) =
      Except.error "net timeout" := by
  exact ⟨rfl, rfl⟩

/-- C3 amended: navigate_with_retry gives up only after its fixed bound
of 3 attempts (after a failed first attempt it still tries attempts 2
and 3), but screenshot capture does not invoke it: a navigation
exception on the single goto of the first viewport aborts the whole
capture immediately with that exception. -/
theorem c3_amended (nav : String → Nat → NavOutcome) (rest : List String)
    (msg : String) (h : nav "desktop" 0 = NavOutcome.err msg) :
    capture_baseline ("desktop" :: rest) nav = Except.error msg ∧
    navigate_with_retry (nav "desktop") MAX_NAVIGATION_RETRIES =
      (navIsOk (nav "desktop" 1) || navIsOk (nav "desktop" 2)) := by
  refine ⟨?_, ?_⟩
  · unfold capture_baseline
    rw [h]
    exact rfl
  · unfold navigate_with_retry MAX_NAVIGATION_RETRIES
    show navLoop (nav "desktop") 0 (2 + 1) = _
    rw [navLoop, h]
    show navLoop (nav "desktop") 1 (1 + 1) = _
    rw [navLoop]
    cases h1 : nav "desktop" 1 with
    | ok => simp [navIsOk]
    | err m1 =>
        show navLoop (nav "desktop") 2 (0 + 1) = _
        rw [navLoop]
        cases h2 : nav "desktop" 2 with
        | ok => simp [navIsOk, h1]
        | err m2 => simp [navIsOk, h1, h2, navLoop]

/-- C3 amended, witnessed on the fail-once oracle. -/
theorem c3_witness :
    capture_baseline ["desktop"] (fun _ => navFailOnce) =
      Except.error "net timeout" ∧
    navigate_with_retry navFailOnce MAX_NAVIGATION_RETRIES =
      (navIsOk (navFailOnce 1) || navIsOk (navFailOnce 2)) :=
  c3_amended (fun _ => navFailOnce) [] "net timeout" rfl

/-- C2 amended, applied to a concrete one-element result list containing
a FAIL record. -/
theorem c2_witness :
    (exit_code [rC10] = 1 ↔ Status.FAIL ∈ [rC10].map RunResult.status) ∧
    (exit_code [rC10] = 0 ↔ Status.FAIL ∉ [rC10].map RunResult.status) :=
  c2_amended [rC10]

/-- C5 amended, applied to the all-pass environment. -/
theorem c5_witness :
    resolveEngine "chrome" = resolveEngine "chromium" ∧
    (test_browsers ["chrome", "chromium"] (fun _ => envAllPass)).map
        RunResult.engine = ["chromium", "chromium"] ∧
    (test_browsers ["chrome", "chromium"] (fun _ => envAllPass)).length = 2 :=
  c5_amended (fun _ => envAllPass)

end WebAppQA
